import Mathlib

/-!
Verification of the typecast-python SDK's request/response model layer and
error-mapping protocol.

The repository's `src/` tree contains only the SDK's tests and examples; the
library modules themselves (`typecast/models.py`, `typecast/client.py`,
`typecast/exceptions.py`) are not present.  Every definition below is
therefore modelled from the specification, pinned wherever possible by the
behaviour the repository's own tests assert:

  * `tests/test_mock_tts.py` asserts the client posts
    `json=request.model_dump(exclude_none=True)` and that a 200 response with
    headers `X-Audio-Duration: "1.5"` and `Content-Type: "audio/wav"` decodes
    to a `TTSResponse` with those bytes, duration 1.5 and format `wav`;
  * `tests/test_error_handling.py` pins the status-code-to-error mapping
    (400, 401, 402, 404, 422, 500 to dedicated kinds, others to the generic
    `TypecastError`), that each error's `status_code` equals the observed
    status, and that the 401 error's message contains "Unauthorized";
  * `tests/test_language_code.py` pins the `LanguageCode` enum values and that
    `language` accepts both an enum member and a raw string, both dumping to
    the plain string value.

Floats in the source (`emotion_intensity`, `audio_tempo`, `duration`) are
modelled as rationals: every value the claims touch is a short decimal, for
which IEEE semantics and exact rational semantics agree on construction,
comparison and equality.  Byte bodies are modelled as `List Nat`.
-/

namespace TypecastSDK

/-- Modelled from the spec: the JSON values the SDK serializes — strings,
integers, decimal numbers and objects (objects as ordered key/value lists,
matching pydantic `model_dump` output order). -/
inductive Json where
  | str : String → Json
  | int : Int → Json
  | num : ℚ → Json
  | obj : List (String × Json) → Json
  | arr : List Json → Json
deriving Repr

/-- Lookup of a key in a dumped JSON object body. -/
def assocLookup (k : String) : List (String × Json) → Option Json
  | [] => none
  | (k', v) :: rest => if k' = k then some v else assocLookup k rest

/-- The list of keys of a dumped JSON object body. -/
def keysOf (l : List (String × Json)) : List String := l.map Prod.fst

/-- Modelled from the spec: the `LanguageCode` string enum of
`typecast/models.py` (absent from `src/`); its members and values are pinned
by `tests/test_language_code.py::test_all_language_codes_exist`. -/
inductive LanguageCode where
  | eng | kor | spa | deu | fra | ita | pol | nld | rus | jpn
  | ell | tam | tgl | fin | zho | slk | ara | hrv | ukr | ind
  | dan | swe | msa | ces | por | bul | ron
deriving DecidableEq, Repr

/-- The wire value of a `LanguageCode` member (pydantic `str`-enum value). -/
def LanguageCode.value : LanguageCode → String
  | .eng => "eng" | .kor => "kor" | .spa => "spa" | .deu => "deu"
  | .fra => "fra" | .ita => "ita" | .pol => "pol" | .nld => "nld"
  | .rus => "rus" | .jpn => "jpn" | .ell => "ell" | .tam => "tam"
  | .tgl => "tgl" | .fin => "fin" | .zho => "zho" | .slk => "slk"
  | .ara => "ara" | .hrv => "hrv" | .ukr => "ukr" | .ind => "ind"
  | .dan => "dan" | .swe => "swe" | .msa => "msa" | .ces => "ces"
  | .por => "por" | .bul => "bul" | .ron => "ron"

/-- Modelled from the spec: the `language` field accepts either a validated
enum member or an arbitrary string (permissive passthrough), per spec §3 and
`tests/test_language_code.py`. -/
inductive Language where
  | code : LanguageCode → Language
  | raw : String → Language
deriving DecidableEq, Repr

/-- The plain string a `language` value serializes to on the wire. -/
def Language.wire : Language → String
  | .code c => c.value
  | .raw s => s

/-- Modelled from the spec: the `TTSModel` enum (`ssfm-v21`, `ssfm-v30`),
used by `examples/ssfm_v30_test.py`. -/
inductive TTSModel where
  | ssfm_v21 | ssfm_v30
deriving DecidableEq, Repr

/-- The wire value of a `TTSModel` member. -/
def TTSModel.value : TTSModel → String
  | .ssfm_v21 => "ssfm-v21"
  | .ssfm_v30 => "ssfm-v30"

/-- Modelled from the spec: the `model` field likewise accepts an enum member
or a raw string (tests pass the string `"ssfm-v21"`, the v30 example passes
`TTSModel.SSFM_V30`). -/
inductive ModelField where
  | enum : TTSModel → ModelField
  | raw : String → ModelField
deriving DecidableEq, Repr

/-- The plain string a `model` value serializes to on the wire. -/
def ModelField.wire : ModelField → String
  | .enum m => m.value
  | .raw s => s

/-- Modelled from the spec: the audio format enum (`wav` | `mp3`), spec §3. -/
inductive AudioFormat where
  | wav | mp3
deriving DecidableEq, Repr

/-- The wire value of an `AudioFormat` member. -/
def AudioFormat.value : AudioFormat → String
  | .wav => "wav"
  | .mp3 => "mp3"

/-- Modelled from the spec: the legacy `Prompt` model of `typecast/models.py`
(absent from `src/`): `emotion_preset` optional, `emotion_intensity` a float
with construction default 1.0 and range [0.0, 2.0] (spec §3).  `fields_set`
mirrors pydantic's `model_fields_set`: the names the caller passed
explicitly, which serialization may or may not consult. -/
structure Prompt where
  emotion_preset : Option String := none
  emotion_intensity : ℚ := 1
  fields_set : List String := []
deriving DecidableEq, Repr

/-- Modelled from the spec: the `Output` model of `typecast/models.py`
(absent from `src/`): every field an explicit optional defaulting to absent
(spec §3: "All fields optional; absent fields are omitted from the wire"),
with ranges volume [0,200], audio_pitch [-12,12], audio_tempo [0.5,2.0]. -/
structure Output where
  volume : Option Int := none
  audio_pitch : Option Int := none
  audio_tempo : Option ℚ := none
  audio_format : Option AudioFormat := none
  fields_set : List String := []
deriving DecidableEq, Repr

/-- Modelled from the spec: a client-side validation failure (pydantic
`ValidationError`), raised before any network call; a distinct type from the
service-side `TypecastError` hierarchy, so the two are distinguishable by
construction. -/
structure ValidationError where
  loc : String
deriving DecidableEq, Repr

/-- Modelled from the spec: validated construction of `Prompt` — pydantic
checks `emotion_intensity` against [0.0, 2.0] eagerly (spec §4.1, §8).  A
`none` argument models the caller omitting the keyword: the field keeps its
construction default 1.0 and is not recorded in `fields_set`. -/
def Prompt.create (emotion_preset : Option String) (emotion_intensity : Option ℚ) :
    Except ValidationError Prompt :=
  if emotion_intensity.all (fun i => decide (0 ≤ i ∧ i ≤ 2)) then
    .ok { emotion_preset := emotion_preset,
          emotion_intensity := emotion_intensity.getD 1,
          fields_set :=
            (emotion_preset.map (fun _ => "emotion_preset")).toList ++
            (emotion_intensity.map (fun _ => "emotion_intensity")).toList }
  else
    .error ⟨"emotion_intensity"⟩

/-- Modelled from the spec: validated construction of `Output` — pydantic
checks each provided field against its range eagerly (spec §4.1, §8). -/
def Output.create (volume : Option Int) (audio_pitch : Option Int)
    (audio_tempo : Option ℚ) (audio_format : Option AudioFormat) :
    Except ValidationError Output :=
  if ¬ volume.all (fun v => decide (0 ≤ v ∧ v ≤ 200)) then
    .error ⟨"volume"⟩
  else if ¬ audio_pitch.all (fun p => decide (-12 ≤ p ∧ p ≤ 12)) then
    .error ⟨"audio_pitch"⟩
  else if ¬ audio_tempo.all (fun t => decide ((1 : ℚ)/2 ≤ t ∧ t ≤ 2)) then
    .error ⟨"audio_tempo"⟩
  else
    .ok { volume := volume, audio_pitch := audio_pitch,
          audio_tempo := audio_tempo, audio_format := audio_format,
          fields_set :=
            (volume.map (fun _ => "volume")).toList ++
            (audio_pitch.map (fun _ => "audio_pitch")).toList ++
            (audio_tempo.map (fun _ => "audio_tempo")).toList ++
            (audio_format.map (fun _ => "audio_format")).toList }

/-- Modelled from the spec: the `TTSRequest` model of `typecast/models.py`
(absent from `src/`): `text`, `voice_id`, `model` required; `language`,
`prompt`, `output`, `seed` optional defaulting to `None` (pinned by
`tests/test_language_code.py::test_language_code_optional`).  `fields_set`
mirrors pydantic's `model_fields_set`. -/
structure TTSRequest where
  text : String
  voice_id : String
  model : ModelField
  language : Option Language := none
  prompt : Option Prompt := none
  output : Option Output := none
  seed : Option Int := none
  fields_set : List String := []
deriving DecidableEq, Repr

/-- Helper: a single optional key of a dumped body, omitted when absent. -/
def optField (k : String) : Option Json → List (String × Json)
  | none => []
  | some j => [(k, j)]

/-- Modelled from the spec: `Prompt.model_dump(exclude_none=True)` — omits
`emotion_preset` when `None`; `emotion_intensity` is a non-`None` float so it
is always emitted, whether or not the caller set it. -/
def Prompt.dump (p : Prompt) : List (String × Json) :=
  optField "emotion_preset" (p.emotion_preset.map Json.str) ++
  [("emotion_intensity", Json.num p.emotion_intensity)]

/-- Modelled from the spec: `Output.model_dump(exclude_none=True)` — every
`None` field is omitted. -/
def Output.dump (o : Output) : List (String × Json) :=
  optField "volume" (o.volume.map Json.int) ++
  optField "audio_pitch" (o.audio_pitch.map Json.int) ++
  optField "audio_tempo" (o.audio_tempo.map Json.num) ++
  optField "audio_format" (o.audio_format.map (fun f => Json.str f.value))

/-- `TTSRequest.model_dump(exclude_none=True)`: the serialization the client
actually posts, pinned by `tests/test_mock_tts.py` (the mock asserts the post
body is exactly `request.model_dump(exclude_none=True)`).  Every field whose
value is `None` is omitted; enum-valued fields serialize to their plain
string wire value.  It does not consult `fields_set`. -/
def TTSRequest.model_dump_exclude_none (r : TTSRequest) : List (String × Json) :=
  [("text", Json.str r.text),
   ("voice_id", Json.str r.voice_id),
   ("model", Json.str r.model.wire)] ++
  optField "language" (r.language.map (fun l => Json.str l.wire)) ++
  optField "prompt" (r.prompt.map (fun p => Json.obj p.dump)) ++
  optField "output" (r.output.map (fun o => Json.obj o.dump)) ++
  optField "seed" (r.seed.map Json.int)

/-- Modelled from the spec: the discriminants of the service-side error
hierarchy of `typecast/exceptions.py` (absent from `src/`): one kind per
mapped status code, a generic catch-all (`TypecastError` itself), and a
decode kind for malformed success-path bodies (spec §4.2, §4.3, §7). -/
inductive ErrorKind where
  | badRequest | unauthorized | paymentRequired | notFound
  | unprocessableEntity | internalServerError | generic | decodeError
deriving DecidableEq, Repr

/-- Modelled from the spec: the fixed per-kind description each error class
carries (spec §4.2: "else a fixed description"); the 401 description is
pinned to contain "Unauthorized" by
`tests/test_error_handling.py::test_unauthorized_error`. -/
def ErrorKind.desc : ErrorKind → String
  | .badRequest => "Bad request"
  | .unauthorized => "Unauthorized"
  | .paymentRequired => "Payment required"
  | .notFound => "Not found"
  | .unprocessableEntity => "Unprocessable entity"
  | .internalServerError => "Internal server error"
  | .generic => "Typecast API error"
  | .decodeError => "Failed to decode response"

/-- Modelled from the spec: the raised error value — kind discriminant,
`status_code`, and human-readable `message` (spec §3 "Error value"). -/
structure TypecastError where
  kind : ErrorKind
  status_code : Nat
  message : String
deriving DecidableEq, Repr

/-- Modelled from the spec: the error message carries the raw response body
text when available, else only the fixed description (spec §4.2); the fixed
description is kept as a prefixing label because the repository's own test
requires the 401 message to contain "Unauthorized" even when the body text is
"Invalid API key". -/
def mkMessage (k : ErrorKind) (bodyText : String) : String :=
  if bodyText = "" then k.desc else k.desc ++ ": " ++ bodyText

/-- Modelled from the spec: the total, deterministic status-to-kind mapping
of `typecast/client.py` (absent from `src/`), pinned by
`tests/test_error_handling.py` — 400, 401, 402, 404, 422, 500 to dedicated
kinds, everything else to the generic kind. -/
def errorKindOfStatus (status : Nat) : ErrorKind :=
  if status = 400 then .badRequest
  else if status = 401 then .unauthorized
  else if status = 402 then .paymentRequired
  else if status = 404 then .notFound
  else if status = 422 then .unprocessableEntity
  else if status = 500 then .internalServerError
  else .generic

/-- Modelled from the spec: the error value raised for a non-2xx response,
built from the status code and the response body text; its `status_code`
field is the observed status (pinned by every test in
`tests/test_error_handling.py`). -/
def errorForStatus (status : Nat) (bodyText : String) : TypecastError :=
  { kind := errorKindOfStatus status,
    status_code := status,
    message := mkMessage (errorKindOfStatus status) bodyText }

/-- A 2xx HTTP status (spec §4.3: "if status is 2xx"). -/
def is2xx (status : Nat) : Bool :=
  decide (200 ≤ status ∧ status < 300)

/-- The raw HTTP response the transport collaborator hands back: status code,
header map, body bytes (`content`), body decoded as text (`text`), and body
parsed as JSON when the endpoint returns JSON (requests' `.json()`). -/
structure RawResponse where
  status_code : Nat
  headers : List (String × String)
  content : List Nat
  text : String
  json : Option Json
deriving Repr

/-- Exact-name lookup in the response header map. -/
def headerLookup (name : String) : List (String × String) → Option String
  | [] => none
  | (k, v) :: rest => if k = name then some v else headerLookup name rest

/-- Value of a decimal digit character. -/
def digitVal (c : Char) : Option Nat :=
  if c.isDigit then some (c.toNat - 48) else none

/-- Parse a non-empty all-digit character sequence into a natural number. -/
def parseDigits : List Char → Option Nat
  | [] => none
  | cs => cs.foldl
      (fun acc c => match acc, digitVal c with
        | some n, some d => some (n * 10 + d)
        | _, _ => none)
      (some 0)

/-- Split a character sequence at the first dot. -/
def splitAtDot : List Char → (List Char × Option (List Char))
  | [] => ([], none)
  | c :: cs =>
    if c = '.' then ([], some cs)
    else
      let r := splitAtDot cs
      (c :: r.1, r.2)

/-- Parse a decimal numeral such as "1.5" or "2" into an exact rational
(Python `float(...)` on the header values the claims touch). -/
def parseDecimal (s : String) : Option ℚ :=
  match splitAtDot s.toList with
  | (intPart, none) => (parseDigits intPart).map (fun n => (n : ℚ))
  | (intPart, some fracPart) =>
      match parseDigits intPart, parseDigits fracPart with
      | some n, some f =>
          some ((n : ℚ) + (f : ℚ) / ((10 : ℚ) ^ fracPart.length))
      | _, _ => none

/-- Modelled from the spec: the synthesized-audio duration parsed from the
`X-Audio-Duration` response header (header name pinned by
`tests/test_mock_tts.py`), defaulting to 0 when absent (spec §4.3). -/
def durationFromHeaders (headers : List (String × String)) : ℚ :=
  match headerLookup "X-Audio-Duration" headers with
  | none => 0
  | some s => (parseDecimal s).getD 0

/-- Modelled from the spec: the response format parsed from the
`Content-Type` response header — `audio/mpeg` means mp3, everything else
(including `audio/wav`, unrecognized values, and an absent header) falls back
to the default wav (spec §3, §4.3). -/
def formatFromHeaders (headers : List (String × String)) : AudioFormat :=
  match headerLookup "Content-Type" headers with
  | none => .wav
  | some ct => if ct = "audio/mpeg" then .mp3 else .wav

/-- Modelled from the spec: the decoded success value of the synthesis
operation — raw audio bytes, header-derived duration and format (spec §3). -/
structure TTSResponse where
  audio_data : List Nat
  duration : ℚ
  format : AudioFormat
deriving DecidableEq, Repr

/-- Modelled from the spec: the v1 voice descriptor (spec §3), field presence
pinned by `tests/test_integration_voices.py`. -/
structure VoicesResponse where
  voice_id : String
  voice_name : String
  model : String
  emotions : List String
deriving DecidableEq, Repr

/-- Extract the string payload of a JSON value, if it is a string. -/
def Json.asStr : Json → Option String
  | .str s => some s
  | _ => none

/-- Extract a JSON array of strings, if the value has that shape. -/
def Json.asStrList : Json → Option (List String)
  | .arr items => items.mapM Json.asStr
  | _ => none

/-- Parse one v1 voice descriptor from a JSON object, tolerating extra
fields (spec §4.1 forward compatibility). -/
def voiceOfJson : Json → Option VoicesResponse
  | .obj fields =>
      match (assocLookup "voice_id" fields).bind Json.asStr,
            (assocLookup "voice_name" fields).bind Json.asStr,
            (assocLookup "model" fields).bind Json.asStr,
            (assocLookup "emotions" fields).bind Json.asStrList with
      | some vid, some vname, some m, some ems =>
          some { voice_id := vid, voice_name := vname, model := m,
                 emotions := ems }
      | _, _, _, _ => none
  | _ => none

namespace Typecast

/-- Modelled from the spec: the synthesis endpoint URL built by
`Typecast.text_to_speech` (pinned by `tests/test_mock_tts.py`:
`f"{client.host}/v1/text-to-speech"`). -/
def tts_url (host : String) : String := host ++ "/v1/text-to-speech"

/-- Modelled from the spec: the JSON body `Typecast.text_to_speech` posts —
exactly `request.model_dump(exclude_none=True)` (pinned by
`tests/test_mock_tts.py`). -/
def tts_body (req : TTSRequest) : List (String × Json) :=
  req.model_dump_exclude_none

/-- Modelled from the spec: the decode half of `Typecast.text_to_speech`
(`typecast/client.py`, absent from `src/`): on a 2xx status build the
`TTSResponse` from the raw body bytes and the two response headers; on any
other status raise the error mapped from the status code and body text
(spec §4.3).  The request that was sent plays no part in decoding. -/
def text_to_speech (req : TTSRequest) (resp : RawResponse) :
    Except TypecastError TTSResponse :=
  if is2xx resp.status_code then
    .ok { audio_data := resp.content,
          duration := durationFromHeaders resp.headers,
          format := formatFromHeaders resp.headers }
  else
    .error (errorForStatus resp.status_code resp.text)

/-- Modelled from the spec: the decode half of `Typecast.get_voice`: on a
2xx status parse the JSON body into a v1 voice descriptor (a malformed body
is a decode error, spec §4.3); on any other status — in particular the 404 a
nonexistent id yields — raise the mapped error (spec §4.4). -/
def get_voice (voice_id : String) (resp : RawResponse) :
    Except TypecastError VoicesResponse :=
  if is2xx resp.status_code then
    match resp.json.bind voiceOfJson with
    | some v => .ok v
    | none => .error { kind := .decodeError,
                       status_code := resp.status_code,
                       message := ErrorKind.decodeError.desc }
  else
    .error (errorForStatus resp.status_code resp.text)

/-- Modelled from the spec: the decode half of `Typecast.voices` (the v1
voice-list operation): on a 2xx status parse the JSON body into a list of v1
voice descriptors; on any other status raise the mapped error. -/
def voices (resp : RawResponse) :
    Except TypecastError (List VoicesResponse) :=
  if is2xx resp.status_code then
    match resp.json.bind (fun j =>
      match j with
      | .arr items => items.mapM voiceOfJson
      | _ => none) with
    | some vs => .ok vs
    | none => .error { kind := .decodeError,
                       status_code := resp.status_code,
                       message := ErrorKind.decodeError.desc }
  else
    .error (errorForStatus resp.status_code resp.text)

end Typecast

/-- C1: for every non-2xx HTTP status observed on any operation, the client
raises exactly one error kind determined solely by the status code — 400 is
BadRequest, 401 Unauthorized, 402 PaymentRequired, 404 NotFound, 422
UnprocessableEntity, 500 InternalServerError, any other non-2xx status (e.g.
503) the generic TypecastError — and the raised error always carries that
status code in its `status_code` field. -/
theorem status_code_error_mapping :
    (∀ t, (errorForStatus 400 t).kind = .badRequest) ∧
    (∀ t, (errorForStatus 401 t).kind = .unauthorized) ∧
    (∀ t, (errorForStatus 402 t).kind = .paymentRequired) ∧
    (∀ t, (errorForStatus 404 t).kind = .notFound) ∧
    (∀ t, (errorForStatus 422 t).kind = .unprocessableEntity) ∧
    (∀ t, (errorForStatus 500 t).kind = .internalServerError) ∧
    (∀ s t, s ∉ ([400, 401, 402, 404, 422, 500] : List ℕ) →
      (errorForStatus s t).kind = .generic) ∧
    (∀ s t, (errorForStatus s t).status_code = s) ∧
    (∀ s t t', (errorForStatus s t).kind = (errorForStatus s t').kind) ∧
    (∀ (req : TTSRequest) (resp : RawResponse), is2xx resp.status_code = false →
      Typecast.text_to_speech req resp =
        .error (errorForStatus resp.status_code resp.text)) ∧
    (∀ (vid : String) (resp : RawResponse), is2xx resp.status_code = false →
      Typecast.get_voice vid resp =
        .error (errorForStatus resp.status_code resp.text)) ∧
    (∀ (resp : RawResponse), is2xx resp.status_code = false →
      Typecast.voices resp =
        .error (errorForStatus resp.status_code resp.text)) := by
  refine ⟨fun t => rfl, fun t => rfl, fun t => rfl, fun t => rfl, fun t => rfl,
    fun t => rfl, ?_, ?_, ?_, ?_, ?_, ?_⟩
  · intro s t hs
    simp only [List.mem_cons, List.mem_singleton, not_or] at hs
    obtain ⟨h400, h401, h402, h404, h422, h500, _⟩ := hs
    simp [errorForStatus, errorKindOfStatus, h400, h401, h402, h404, h422, h500]
  · intro s t; rfl
  · intro s t t'; rfl
  · intro req resp h
    simp [Typecast.text_to_speech, h]
  · intro vid resp h
    simp [Typecast.get_voice, h]
  · intro resp h
    simp [Typecast.voices, h]

/-- Witness for C1 at concrete inputs: status 503 with body "Service
unavailable" maps to the generic kind with status_code 503, and the
`get_voice` operation on a concrete 404 response raises the mapped error. -/
theorem status_code_error_mapping_witness :
    (errorForStatus 503 "Service unavailable").kind = .generic ∧
    (errorForStatus 503 "Service unavailable").status_code = 503 ∧
    Typecast.get_voice "tc_nonexistent"
      { status_code := 404, headers := [], content := [],
        text := "Voice not found", json := none } =
      .error (errorForStatus 404 "Voice not found") := by
  refine ⟨status_code_error_mapping.2.2.2.2.2.2.1 503 "Service unavailable"
      (by decide),
    status_code_error_mapping.2.2.2.2.2.2.2.1 503 "Service unavailable",
    status_code_error_mapping.2.2.2.2.2.2.2.2.2.2.1 "tc_nonexistent"
      { status_code := 404, headers := [], content := [],
        text := "Voice not found", json := none } (by decide)⟩

/-- C7: encoding the request TTSRequest{text: "Hi", voice_id: "tc_test",
model: "ssfm-v21"} with no other field set produces a body containing exactly
the keys `text`, `voice_id` and `model`, and no `language`, `prompt`,
`output` or `seed` key. -/
theorem minimal_request_body_keys :
    keysOf (Typecast.tts_body
      { text := "Hi", voice_id := "tc_test", model := .raw "ssfm-v21",
        fields_set := ["text", "voice_id", "model"] }) =
      ["text", "voice_id", "model"] ∧
    assocLookup "text" (Typecast.tts_body
      { text := "Hi", voice_id := "tc_test", model := .raw "ssfm-v21",
        fields_set := ["text", "voice_id", "model"] }) =
      some (.str "Hi") ∧
    assocLookup "voice_id" (Typecast.tts_body
      { text := "Hi", voice_id := "tc_test", model := .raw "ssfm-v21",
        fields_set := ["text", "voice_id", "model"] }) =
      some (.str "tc_test") ∧
    assocLookup "model" (Typecast.tts_body
      { text := "Hi", voice_id := "tc_test", model := .raw "ssfm-v21",
        fields_set := ["text", "voice_id", "model"] }) =
      some (.str "ssfm-v21") ∧
    assocLookup "language" (Typecast.tts_body
      { text := "Hi", voice_id := "tc_test", model := .raw "ssfm-v21",
        fields_set := ["text", "voice_id", "model"] }) = none ∧
    assocLookup "prompt" (Typecast.tts_body
      { text := "Hi", voice_id := "tc_test", model := .raw "ssfm-v21",
        fields_set := ["text", "voice_id", "model"] }) = none ∧
    assocLookup "output" (Typecast.tts_body
      { text := "Hi", voice_id := "tc_test", model := .raw "ssfm-v21",
        fields_set := ["text", "voice_id", "model"] }) = none ∧
    assocLookup "seed" (Typecast.tts_body
      { text := "Hi", voice_id := "tc_test", model := .raw "ssfm-v21",
        fields_set := ["text", "voice_id", "model"] }) = none := by
  refine ⟨rfl, rfl, rfl, rfl, rfl, rfl, rfl, rfl⟩

/-- C3: decoding a synthesis response with status 200, duration header
"1.5", content-type "audio/wav" and an arbitrary byte body yields a
TTSResponse whose audio_data is exactly those bytes, whose duration is 1.5
and whose format is wav; an absent or unrecognized content-type defaults the
format to wav, and an absent duration header defaults the duration to 0. -/
theorem tts_decode_success :
    (∀ (req : TTSRequest) (body : List Nat) (t : String) (j : Option Json),
      Typecast.text_to_speech req
        { status_code := 200,
          headers := [("X-Audio-Duration", "1.5"), ("Content-Type", "audio/wav")],
          content := body, text := t, json := j } =
        .ok { audio_data := body, duration := 3/2, format := .wav }) ∧
    (∀ headers, headerLookup "Content-Type" headers = none →
      formatFromHeaders headers = .wav) ∧
    (∀ headers ct, headerLookup "Content-Type" headers = some ct →
      ct ≠ "audio/mpeg" → formatFromHeaders headers = .wav) ∧
    (∀ headers, headerLookup "X-Audio-Duration" headers = none →
      durationFromHeaders headers = 0) := by
  refine ⟨?_, ?_, ?_, ?_⟩
  · intro req body t j
    have hd : durationFromHeaders
        [("X-Audio-Duration", "1.5"), ("Content-Type", "audio/wav")] = 3/2 := by
      simp [durationFromHeaders, headerLookup, parseDecimal, splitAtDot,
        parseDigits, digitVal, Char.isDigit]
      norm_num
    have hf : formatFromHeaders
        [("X-Audio-Duration", "1.5"), ("Content-Type", "audio/wav")] = .wav := by
      simp [formatFromHeaders, headerLookup]
    simp [Typecast.text_to_speech, is2xx, hd, hf]
  · intro headers h
    simp [formatFromHeaders, h]
  · intro headers ct h hne
    simp [formatFromHeaders, h, hne]
  · intro headers h
    simp [durationFromHeaders, h]

/-- Witness for C3 at a concrete response: a 15-byte body with the two
headers decodes to exactly those bytes, duration 1.5, format wav; and with
empty headers the format is wav and the duration 0. -/
theorem tts_decode_success_witness :
    Typecast.text_to_speech
      { text := "Hi", voice_id := "tc_test", model := .raw "ssfm-v21" }
      { status_code := 200,
        headers := [("X-Audio-Duration", "1.5"), ("Content-Type", "audio/wav")],
        content := [1, 2, 3, 4, 5, 6, 7, 8, 9, 10, 11, 12, 13, 14, 15],
        text := "", json := none } =
      .ok { audio_data := [1, 2, 3, 4, 5, 6, 7, 8, 9, 10, 11, 12, 13, 14, 15],
            duration := 3/2, format := .wav } ∧
    formatFromHeaders [] = .wav ∧
    durationFromHeaders [] = 0 := by
  refine ⟨tts_decode_success.1
      { text := "Hi", voice_id := "tc_test", model := .raw "ssfm-v21" }
      [1, 2, 3, 4, 5, 6, 7, 8, 9, 10, 11, 12, 13, 14, 15] "" none,
    tts_decode_success.2.1 [] rfl,
    tts_decode_success.2.2.2 [] rfl⟩

/-- C4: a synthesis response with status 401 and body text "Invalid API key"
raises the Unauthorized error with status_code 401 and a message containing
"Invalid API key"; in general every service error's message carries the raw
response body text when that text is non-empty, and falls back to the fixed
per-kind description when it is empty. -/
theorem unauthorized_error_message :
    (∀ (req : TTSRequest) (hs : List (String × String)) (body : List Nat)
        (j : Option Json),
      Typecast.text_to_speech req
        { status_code := 401, headers := hs, content := body,
          text := "Invalid API key", json := j } =
        .error { kind := .unauthorized, status_code := 401,
                 message := "Unauthorized: " ++ "Invalid API key" }) ∧
    (∀ s t, t ≠ "" → ∃ a, (errorForStatus s t).message = a ++ t) ∧
    (∀ s, (errorForStatus s "").message = (errorKindOfStatus s).desc) := by
  refine ⟨?_, ?_, ?_⟩
  · intro req hs body j
    simp [Typecast.text_to_speech, is2xx, errorForStatus, errorKindOfStatus,
      mkMessage, ErrorKind.desc]
  · intro s t ht
    refine ⟨(errorKindOfStatus s).desc ++ ": ", ?_⟩
    simp [errorForStatus, mkMessage, ht]
  · intro s
    simp [errorForStatus, mkMessage]

/-- Witness for C4 at concrete inputs: the 401 decode with body "Invalid API
key" produces the Unauthorized error whose message literally extends
"Invalid API key", and a 400 error with non-empty body carries the body in
its message. -/
theorem unauthorized_error_message_witness :
    Typecast.text_to_speech
      { text := "Test", voice_id := "tc_test", model := .raw "ssfm-v21" }
      { status_code := 401, headers := [], content := [],
        text := "Invalid API key", json := none } =
      .error { kind := .unauthorized, status_code := 401,
               message := "Unauthorized: " ++ "Invalid API key" } ∧
    (∃ a, (errorForStatus 400 "Invalid request parameters").message =
      a ++ "Invalid request parameters") := by
  refine ⟨unauthorized_error_message.1
      { text := "Test", voice_id := "tc_test", model := .raw "ssfm-v21" }
      [] [] none,
    unauthorized_error_message.2.1 400 "Invalid request parameters"
      (by decide)⟩

/-- C6: the language field accepts both a LanguageCode enum member and an
arbitrary plain string; an enum member and the plain string equal to its
value serialize to the identical wire string — the whole request bodies
coincide — and strings outside the enum are passed through unchanged. -/
theorem language_enum_string_equivalence :
    (∀ c : LanguageCode,
      (Language.code c).wire = c.value ∧ (Language.raw c.value).wire = c.value) ∧
    (∀ s : String, (Language.raw s).wire = s) ∧
    (∀ (r : TTSRequest) (c : LanguageCode),
      TTSRequest.model_dump_exclude_none { r with language := some (.code c) } =
      TTSRequest.model_dump_exclude_none { r with language := some (.raw c.value) }) := by
  refine ⟨fun c => ⟨rfl, rfl⟩, fun s => rfl, ?_⟩
  intro r c
  simp [TTSRequest.model_dump_exclude_none, Language.wire]

/-- C5: constructing a Prompt with emotion_intensity outside [0.0, 2.0], or
an Output with volume outside [0, 200], audio_pitch outside [-12, 12] or
audio_tempo outside [0.5, 2.0], fails client-side with a ValidationError
(a type distinct from the service-side TypecastError, raised before any
network call); every value inside the ranges constructs successfully. -/
theorem field_range_validation :
    (∀ (ep : Option String) (i : ℚ), ¬ (0 ≤ i ∧ i ≤ 2) →
      Prompt.create ep (some i) = .error ⟨"emotion_intensity"⟩) ∧
    (∀ (ep : Option String) (i : ℚ), (0 ≤ i ∧ i ≤ 2) →
      (Prompt.create ep (some i)).isOk = true) ∧
    (∀ (v : Int) (f : Option AudioFormat), ¬ (0 ≤ v ∧ v ≤ 200) →
      Output.create (some v) none none f = .error ⟨"volume"⟩) ∧
    (∀ (v : Int) (f : Option AudioFormat), (0 ≤ v ∧ v ≤ 200) →
      (Output.create (some v) none none f).isOk = true) ∧
    (∀ (p : Int) (f : Option AudioFormat), ¬ (-12 ≤ p ∧ p ≤ 12) →
      Output.create none (some p) none f = .error ⟨"audio_pitch"⟩) ∧
    (∀ (p : Int) (f : Option AudioFormat), (-12 ≤ p ∧ p ≤ 12) →
      (Output.create none (some p) none f).isOk = true) ∧
    (∀ (t : ℚ) (f : Option AudioFormat), ¬ ((1 : ℚ)/2 ≤ t ∧ t ≤ 2) →
      Output.create none none (some t) f = .error ⟨"audio_tempo"⟩) ∧
    (∀ (t : ℚ) (f : Option AudioFormat), ((1 : ℚ)/2 ≤ t ∧ t ≤ 2) →
      (Output.create none none (some t) f).isOk = true) := by
  refine ⟨?_, ?_, ?_, ?_, ?_, ?_, ?_, ?_⟩
  · intro ep i h
    simp [Prompt.create, Option.all, h]
  · intro ep i h
    simp [Prompt.create, Option.all, h, Except.isOk, Except.toBool]
  · intro v f h
    simp [Output.create, Option.all, h]
  · intro v f h
    simp [Output.create, Option.all, h, Except.isOk, Except.toBool]
  · intro p f h
    simp [Output.create, Option.all, h]
  · intro p f h
    simp [Output.create, Option.all, h, Except.isOk, Except.toBool]
  · intro t f h
    rw [show (1 : ℚ)/2 = 2⁻¹ by norm_num] at h
    simp [Output.create, Option.all, h]
  · intro t f h
    obtain ⟨h1, h2⟩ := h
    rw [show (1 : ℚ)/2 = 2⁻¹ by norm_num] at h1
    simp [Output.create, Option.all, h1, not_lt.mpr h2, Except.isOk,
      Except.toBool]

/-- Witness for C5 at concrete inputs: emotion_intensity 2.5 and volume 250
are rejected with a ValidationError, while 1.5 and 80 are accepted. -/
theorem field_range_validation_witness :
    Prompt.create (some "happy") (some (5/2)) = .error ⟨"emotion_intensity"⟩ ∧
    (Prompt.create (some "happy") (some (3/2))).isOk = true ∧
    Output.create (some 250) none none none = .error ⟨"volume"⟩ ∧
    (Output.create (some 80) none none none).isOk = true := by
  refine ⟨field_range_validation.1 (some "happy") (5/2) (by norm_num),
    field_range_validation.2.1 (some "happy") (3/2) (by norm_num),
    field_range_validation.2.2.1 250 none (by norm_num),
    field_range_validation.2.2.2.1 80 none (by norm_num)⟩

/-- A dumped `Prompt` body always carries the `emotion_intensity` key, with
the stored value, whatever the other fields are. -/
theorem assocLookup_intensity_dump (p : Prompt) :
    assocLookup "emotion_intensity" p.dump = some (.num p.emotion_intensity) := by
  cases hp : p.emotion_preset <;> simp [Prompt.dump, optField, assocLookup, hp]

/-- C2 counterexample: constructing a Prompt with only `emotion_preset`
passed (so `emotion_intensity` is not explicitly set and keeps its non-None
construction default 1.0) and serializing a request carrying it produces a
body whose `prompt` object does contain the `emotion_intensity` key — the
serialization is exclude-None, not exclude-unset. -/
theorem exclude_unset_counterexample :
    Prompt.create (some "happy") none =
      .ok { emotion_preset := some "happy", emotion_intensity := 1,
            fields_set := ["emotion_preset"] } ∧
    "emotion_intensity" ∉
      ({ emotion_preset := some "happy", emotion_intensity := 1,
         fields_set := ["emotion_preset"] } : Prompt).fields_set ∧
    assocLookup "prompt" (Typecast.tts_body
      { text := "Hi", voice_id := "tc_test", model := .raw "ssfm-v21",
        prompt := some { emotion_preset := some "happy",
                         emotion_intensity := 1,
                         fields_set := ["emotion_preset"] },
        fields_set := ["text", "voice_id", "model", "prompt"] }) =
      some (.obj [("emotion_preset", .str "happy"),
                  ("emotion_intensity", .num 1)]) := by
  refine ⟨rfl, by decide, rfl⟩

/-- C2 amended: the request body the client posts omits exactly the fields
whose value is None (exclude-None, pinned by the mock test's
`model_dump(exclude_none=True)` assertion): each unset top-level optional
field (language, prompt, output, seed) defaults to None and never appears,
but a nested Prompt field left at its non-None construction default —
`emotion_intensity` defaulting to 1.0 — does appear in the body. -/
theorem exclude_none_serialization (r : TTSRequest) :
    (assocLookup "language" (Typecast.tts_body r) = none ↔ r.language = none) ∧
    (assocLookup "prompt" (Typecast.tts_body r) = none ↔ r.prompt = none) ∧
    (assocLookup "output" (Typecast.tts_body r) = none ↔ r.output = none) ∧
    (assocLookup "seed" (Typecast.tts_body r) = none ↔ r.seed = none) ∧
    (∀ p : Prompt, r.prompt = some p →
      assocLookup "prompt" (Typecast.tts_body r) = some (.obj p.dump) ∧
      assocLookup "emotion_intensity" p.dump =
        some (.num p.emotion_intensity)) := by
  obtain ⟨text, vid, m, lang, pr, out, seed, fs⟩ := r
  cases lang <;> cases pr <;> cases out <;> cases seed <;>
    simp [Typecast.tts_body, TTSRequest.model_dump_exclude_none, optField,
      assocLookup, assocLookup_intensity_dump]

/-- Witness for the amended C2 at a concrete request: with prompt set and
seed unset, the body carries the prompt object (with its always-present
`emotion_intensity` key) and no `seed` key. -/
theorem exclude_none_serialization_witness :
    assocLookup "seed" (Typecast.tts_body
      { text := "Hi", voice_id := "tc_test", model := .raw "ssfm-v21",
        prompt := some { emotion_preset := some "happy",
                         emotion_intensity := 1,
                         fields_set := ["emotion_preset"] } }) = none ∧
    assocLookup "emotion_intensity"
      (Prompt.dump { emotion_preset := some "happy", emotion_intensity := 1,
                     fields_set := ["emotion_preset"] }) =
      some (.num 1) := by
  refine ⟨(exclude_none_serialization
      { text := "Hi", voice_id := "tc_test", model := .raw "ssfm-v21",
        prompt := some { emotion_preset := some "happy",
                         emotion_intensity := 1,
                         fields_set := ["emotion_preset"] } }).2.2.2.1.mpr rfl,
    ((exclude_none_serialization
      { text := "Hi", voice_id := "tc_test", model := .raw "ssfm-v21",
        prompt := some { emotion_preset := some "happy",
                         emotion_intensity := 1,
                         fields_set := ["emotion_preset"] } }).2.2.2.2
      { emotion_preset := some "happy", emotion_intensity := 1,
        fields_set := ["emotion_preset"] } rfl).2⟩

/-- C9: serialization uses exclude-None, so the posted body depends only on
the field values and not on which fields the caller passed explicitly
(pydantic's `model_fields_set`): a field explicitly set to None produces a
body identical to the body produced when the field was never set, for the
request and for the nested Prompt and Output models alike; concretely, a
request with seed explicitly None serializes identically to one that never
mentions seed. -/
theorem dump_ignores_fields_set :
    (∀ (r : TTSRequest) (fs fs' : List String),
      TTSRequest.model_dump_exclude_none { r with fields_set := fs } =
      TTSRequest.model_dump_exclude_none { r with fields_set := fs' }) ∧
    (∀ (p : Prompt) (fs fs' : List String),
      Prompt.dump { p with fields_set := fs } =
      Prompt.dump { p with fields_set := fs' }) ∧
    (∀ (o : Output) (fs fs' : List String),
      Output.dump { o with fields_set := fs } =
      Output.dump { o with fields_set := fs' }) ∧
    Typecast.tts_body
      { text := "Hi", voice_id := "tc_test", model := .raw "ssfm-v21",
        seed := none,
        fields_set := ["text", "voice_id", "model", "seed"] } =
    Typecast.tts_body
      { text := "Hi", voice_id := "tc_test", model := .raw "ssfm-v21",
        fields_set := ["text", "voice_id", "model"] } := by
  refine ⟨fun r fs fs' => rfl, fun p fs fs' => rfl, fun o fs fs' => rfl, rfl⟩

/-- C10: the format of a decoded TTSResponse depends only on the response's
Content-Type header and never on the request — decoding is literally a
function of the raw response alone, and two concrete requests, one asking
for mp3 output and one for wav, decoded against the same audio/wav response
both yield format wav. -/
theorem format_independent_of_request :
    (∀ (r1 r2 : TTSRequest) (resp : RawResponse),
      Typecast.text_to_speech r1 resp = Typecast.text_to_speech r2 resp) ∧
    Typecast.text_to_speech
      { text := "Hi", voice_id := "tc_test", model := .raw "ssfm-v21",
        output := some { audio_format := some .mp3,
                         fields_set := ["audio_format"] } }
      { status_code := 200, headers := [("Content-Type", "audio/wav")],
        content := [7, 7], text := "", json := none } =
      .ok { audio_data := [7, 7], duration := 0, format := .wav } ∧
    Typecast.text_to_speech
      { text := "Hi", voice_id := "tc_test", model := .raw "ssfm-v21",
        output := some { audio_format := some .wav,
                         fields_set := ["audio_format"] } }
      { status_code := 200, headers := [("Content-Type", "audio/wav")],
        content := [7, 7], text := "", json := none } =
      .ok { audio_data := [7, 7], duration := 0, format := .wav } := by
  have hd : durationFromHeaders [("Content-Type", "audio/wav")] = 0 := by
    simp [durationFromHeaders, headerLookup]
  have hf : formatFromHeaders [("Content-Type", "audio/wav")] = .wav := by
    simp [formatFromHeaders, headerLookup]
  refine ⟨fun r1 r2 resp => rfl, ?_, ?_⟩ <;>
    simp [Typecast.text_to_speech, is2xx, hd, hf]

/-- C8: for every response with status 404 — what the service returns for a
nonexistent voice identifier — get_voice raises the NotFound error carrying
status code 404, and never returns a success value. -/
theorem get_voice_not_found :
    ∀ (vid : String) (resp : RawResponse), resp.status_code = 404 →
      Typecast.get_voice vid resp =
        .error { kind := .notFound, status_code := 404,
                 message := mkMessage .notFound resp.text } ∧
      ∀ v : VoicesResponse, Typecast.get_voice vid resp ≠ .ok v := by
  intro vid resp h
  have he : Typecast.get_voice vid resp =
      .error (errorForStatus 404 resp.text) := by
    simp [Typecast.get_voice, h, is2xx]
  have hk : errorForStatus 404 resp.text =
      { kind := .notFound, status_code := 404,
        message := mkMessage .notFound resp.text } := rfl
  refine ⟨he.trans (by rw [hk]), ?_⟩
  intro v hv
  rw [he] at hv
  exact Except.noConfusion hv

/-- Witness for C8 at the concrete 404 response of the repository's
not-found test: get_voice on voice id "tc_nonexistent" with body "Voice not
found" raises NotFound with status_code 404 and returns no success value. -/
theorem get_voice_not_found_witness :
    Typecast.get_voice "tc_nonexistent"
      { status_code := 404, headers := [], content := [],
        text := "Voice not found", json := none } =
      .error { kind := .notFound, status_code := 404,
               message := mkMessage .notFound "Voice not found" } ∧
    ∀ v : VoicesResponse,
      Typecast.get_voice "tc_nonexistent"
        { status_code := 404, headers := [], content := [],
          text := "Voice not found", json := none } ≠ .ok v :=
  get_voice_not_found "tc_nonexistent"
    { status_code := 404, headers := [], content := [],
      text := "Voice not found", json := none } rfl

end TypecastSDK
